import Mathlib

/-!
# Verification of the DeepRoute compile-commands execution orchestrator

Shallow embedding of the command-execution orchestrator
(`DeepRouteCompileCommands`, `src/unnamed/part_000`) and of the
per-command override normalization in `src/src/extension.ts`
(`executeCommandInternal`).

Modelling conventions:
* `Date` modification times become `Nat` (`Date.getTime` order-isomorphic).
* A Node `Buffer`-or-`null` value becomes `Option String`; calling
  `.toString()` on it is a partial operation that raises a JavaScript
  `TypeError` when the value is `null` (modelled in `Except JsError`).
* `child_process.spawnSync` results are environment inputs
  (`SpawnSyncResult`): the model is a function of the outcomes the
  external world can return.
* Side effects that do not influence control flow (output-channel text,
  notifications, uid/gid queries) are not tracked; external calls that the
  claims speak about (docker calls, kill signals, snapshots, spawns) are
  tracked explicitly in result records.
-/

namespace DeepRouteCompileCommands

/-! ## §1  Artifact change detector (`getFileStats`, `isCompileCommandsUpdated`) -/

/-- Outcome of probing one file on the host filesystem: the file is absent,
the probe itself raises an I/O error (caught by `getFileStats`'s
`try/catch`), or the file is present with a modification time. -/
inductive FileProbe where
  | missing
  | ioError
  | present (mtime : Nat)
deriving DecidableEq, Repr

/-- The record returned by `getFileStats` (source lines 486–496):
`{ exists: boolean; mtime?: Date }`. -/
structure FileStats where
  «exists» : Bool
  mtime : Option Nat
deriving DecidableEq, Repr

/-- `getFileStats` (source lines 486–496): `fs.existsSync` / `fs.statSync`
wrapped in `try/catch`; a missing file and an I/O error both fall through
to `return { exists: false }`. -/
def getFileStats : FileProbe → FileStats
  | .present t => { «exists» := true, mtime := some t }
  | .missing => { «exists» := false, mtime := none }
  | .ioError => { «exists» := false, mtime := none }

/-- `isCompileCommandsUpdated(before, after)` (source lines 501–516). -/
def isCompileCommandsUpdated (before after : FileStats) : Bool :=
  -- Scenario 1: file did not exist before, exists now
  if !before.exists && after.exists then
    true
  -- Scenario 2: both exist and both carry an mtime: compare strictly
  else if before.exists && after.exists then
    match before.mtime, after.mtime with
    | some tb, some ta => decide (ta > tb)
    | _, _ => false
  else
    false

/-! ## §2  JavaScript-level primitives -/

/-- A JavaScript runtime fault that escapes the function it occurs in
(the orchestrator has no `try/catch` around the docker pre-checks). -/
inductive JsError where
  | nullToString
deriving DecidableEq, Repr

/-- The result object of a `child_process.spawnSync` call. `error` is set
when the spawn primitive itself failed (e.g. `EAGAIN`, `ENOENT`), in which
case Node leaves `stdout`/`stderr` as `null` (`none`); when the child ran,
`status` is its exit code (`none` if killed by a signal) and
`stdout`/`stderr` are buffers (`some _`). -/
structure SpawnSyncResult where
  error : Option String
  status : Option Int
  stdout : Option String
  stderr : Option String
deriving DecidableEq, Repr

/-- `buf.toString()` on a possibly-`null` buffer: raises a `TypeError`
when the buffer is `null`. -/
def bufToString : Option String → Except JsError String
  | none => .error .nullToString
  | some s => .ok s

/-- Whitespace for the purposes of JavaScript `String.prototype.trim`
(the characters that actually occur in the modelled outputs). -/
def isJsWhitespace (c : Char) : Bool :=
  c == ' ' || c == '\t' || c == '\n' || c == '\r'

/-- JavaScript `s.trim()`: strip leading and trailing whitespace. -/
def jsTrim (s : String) : String :=
  ⟨((s.data.dropWhile isJsWhitespace).reverse.dropWhile isJsWhitespace).reverse⟩

/-- `pat` occurs at the head of `l`. -/
def beginsWith : List Char → List Char → Bool
  | [], _ => true
  | _ :: _, [] => false
  | p :: ps, c :: cs => p == c && beginsWith ps cs

/-- `pat` occurs somewhere in `l`. -/
def subOccurs (pat : List Char) : List Char → Bool
  | [] => beginsWith pat []
  | c :: cs => beginsWith pat (c :: cs) || subOccurs pat cs

/-- JavaScript `s.includes(pat)`: `pat` occurs as a substring of `s`. -/
def strIncludes (s pat : String) : Bool :=
  subOccurs pat.data s.data

/-! ## §3  Container lifecycle phase of `executeInDocker` (lines 63–142) -/

/-- One call made to the docker CLI. -/
inductive DockerCall where
  | inspect
  | start
  | list
deriving DecidableEq, Repr

/-- The docker-side environment of one `executeInDocker` invocation: what
each of the (up to four) `spawnSync` docker calls would return. -/
structure DockerEnv where
  inspectResult : SpawnSyncResult
  listResult : SpawnSyncResult
  startResult : SpawnSyncResult
  verifyResult : SpawnSyncResult
deriving DecidableEq, Repr

/-- How the pre-spawn container phase ends. -/
inductive ContainerOutcome where
  | dockerUnavailable
  | containerNotFound
  | dockerError (msg : String)
  | startFailed
  | verifyFailed
  | proceed
deriving DecidableEq, Repr

/-- Lines 63–142 of `executeInDocker`: inspect the container, list
containers when it does not exist, start it when stopped, re-inspect after
a start.  Every `Buffer.toString()` the source performs on a `spawnSync`
field is modelled through `bufToString`; the `&&` in
`verifyResult.status === 0 && verifyResult.stdout.toString().trim() === 'true'`
short-circuits, so `verifyResult.stdout` is only read when the status is 0. -/
def executeInDockerPre (env : DockerEnv) : Except JsError (ContainerOutcome × List DockerCall) :=
  -- line 69: if (inspectResult.error) → Docker not accessible
  if env.inspectResult.error.isSome then
    .ok (.dockerUnavailable, [.inspect])
  -- line 77: if (inspectResult.status !== 0)
  else if env.inspectResult.status != some 0 then
    match bufToString env.inspectResult.stderr with
    | .error e => .error e
    | .ok errRaw =>
      let errorMsg := jsTrim errRaw
      -- line 81: container does not exist
      if strIncludes errorMsg "No such object" || strIncludes errorMsg "Error: No such container" then
        -- lines 86–94: list available containers (diagnostic)
        match bufToString env.listResult.stdout with
        | .error e => .error e
        | .ok _ => .ok (.containerNotFound, [.inspect, .list])
      else
        -- line 101: other docker errors
        .ok (.dockerError errorMsg, [.inspect])
  else
    -- line 107: parse running state
    match bufToString env.inspectResult.stdout with
    | .error e => .error e
    | .ok out₁ =>
      if jsTrim out₁ == "true" then
        .ok (.proceed, [.inspect])
      else
        -- line 113: docker start
        if env.startResult.error.isSome || env.startResult.status != some 0 then
          .ok (.startFailed, [.inspect, .start])
        -- lines 128–139: verify the container is now running
        else if env.verifyResult.status != some 0 then
          .ok (.verifyFailed, [.inspect, .start, .inspect])
        else
          match bufToString env.verifyResult.stdout with
          | .error e => .error e
          | .ok out₂ =>
            if jsTrim out₂ == "true" then
              .ok (.proceed, [.inspect, .start, .inspect])
            else
              .ok (.verifyFailed, [.inspect, .start, .inspect])

/-! ## §4  Orchestrator process state, `stop` and its escalation timer -/

/-- The live `child_process.ChildProcess` handle behind
`this.currentProcess`.  `killed` is Node's `ChildProcess.killed` flag: set
to `true` once `kill()` has successfully delivered any signal. -/
structure Proc where
  pid : Nat
  killed : Bool
deriving DecidableEq, Repr

/-- The orchestrator's mutable state: the single `currentProcess` field
(line 9) plus whether a `stop`-escalation `setTimeout` is pending. -/
structure OrchState where
  currentProcess : Option Proc
  timerPending : Bool
deriving DecidableEq, Repr

/-- A signal delivered by `ChildProcess.kill`. -/
inductive KillSignal where
  | sigterm (pid : Nat)
  | sigkill (pid : Nat)
deriving DecidableEq, Repr

/-- `stop()` (source lines 445–464).  When a process is current: send
`SIGTERM` (which sets its `killed` flag), schedule the 3-second
force-kill timeout, then immediately clear `this.currentProcess`. -/
def stop (s : OrchState) : OrchState × List KillSignal :=
  match s.currentProcess with
  | none => (s, [])
  | some p =>
    ({ currentProcess := none, timerPending := true }, [.sigterm p.pid])

/-- The body of the `setTimeout` scheduled by `stop` (lines 453–457),
executed 3 seconds later against whatever the state is at that moment:
`if (this.currentProcess && !this.currentProcess.killed)
  this.currentProcess.kill('SIGKILL')`. -/
def stopTimerFire (s : OrchState) : OrchState × List KillSignal :=
  match s.currentProcess with
  | none => ({ s with timerPending := false }, [])
  | some p =>
    if p.killed then
      ({ s with timerPending := false }, [])
    else
      ({ currentProcess := some { p with killed := true }, timerPending := false },
       [.sigkill p.pid])

/-! ## §5  Single-flight confirmation guard (lines 29–42 and 312–325) -/

/-- The user's answer to the "A command is currently running. Stop it?"
warning: the `Stop and Execute New Command` button, the `Cancel` button,
or dismissing the notification (`undefined`). -/
inductive ConfirmChoice where
  | stopAndExecuteNew
  | cancel
  | dismissed
deriving DecidableEq, Repr

/-- Result of the guard at the top of `executeInDocker` / `executeLocally`. -/
structure GuardResult where
  state : OrchState
  proceed : Bool
  asked : Bool
  signals : List KillSignal
deriving DecidableEq, Repr

/-- The identical guard opening `executeInDocker` (lines 29–42) and
`executeLocally` (lines 312–325): when a process handle exists, ask the
user; any answer other than `Stop and Execute New Command` returns
immediately; that answer runs `stop()` and proceeds. -/
def confirmStopGuard (s : OrchState) (choice : ConfirmChoice) : GuardResult :=
  match s.currentProcess with
  | none => ⟨s, true, false, []⟩
  | some _ =>
    if choice = .stopAndExecuteNew then
      let (s₂, sigs) := stop s
      ⟨s₂, true, true, sigs⟩
    else
      ⟨s, false, true, []⟩

/-! ## §6  Full pre-spawn runs of `executeLocally` and `executeInDocker` -/

/-- What one run of `executeLocally` / `executeInDocker` did up to (and
including) the spawn decision. -/
structure RunResult where
  state : OrchState
  dockerCalls : List DockerCall
  tookBeforeSnapshot : Bool
  spawned : Bool
  signals : List KillSignal
deriving DecidableEq, Repr

/-- `executeLocally` (lines 311–378) up to the spawn: confirm-stop guard,
resolve the working directory (when `cwd` is a non-blank string, abort if
the resolved directory does not exist, line 333), take the before
snapshot of `compile_commands.json` (line 341), then spawn (line 378). -/
def executeLocally (s : OrchState) (choice : ConfirmChoice) (cwd : Option String)
    (dirExists : Bool) (newProc : Proc) : RunResult :=
  let g := confirmStopGuard s choice
  if !g.proceed then
    ⟨g.state, [], false, false, g.signals⟩
  else
    let cwdGiven := match cwd with
      | some c => jsTrim c != ""
      | none => false
    if cwdGiven && !dirExists then
      ⟨g.state, [], false, false, g.signals⟩
    else
      ⟨{ g.state with currentProcess := some newProc }, [], true, true, g.signals⟩

/-- `executeInDocker` (lines 28–180) up to the spawn: confirm-stop guard,
container lifecycle phase (§3), before snapshot of
`compile_commands.json` (line 153), then the `docker exec` spawn
(line 178). -/
def executeInDocker (s : OrchState) (choice : ConfirmChoice) (denv : DockerEnv)
    (newProc : Proc) : Except JsError RunResult :=
  let g := confirmStopGuard s choice
  if !g.proceed then
    .ok ⟨g.state, [], false, false, g.signals⟩
  else
    match executeInDockerPre denv with
    | .error e => .error e
    | .ok (.proceed, calls) =>
        .ok ⟨{ g.state with currentProcess := some newProc }, calls, true, true, g.signals⟩
    | .ok (_, calls) =>
        .ok ⟨g.state, calls, false, false, g.signals⟩

/-! ## §7  Path rewrite, clangd restart, and the process close handler -/

/-- The environment of one `restartClangd` run: what the filesystem, the
`grep`/`sed` children and the editor's command registry would answer. -/
structure RestartEnv where
  fileExists : Bool
  statThrows : Bool
  grepFound : Bool
  sedOk : Bool
  clangdAvailable : Bool
deriving DecidableEq, Repr

/-- What `replaceCompileCommandsPath` did: its boolean return value, and
which of the two child-process phases actually ran. -/
structure RewriteResult where
  replaced : Bool
  grepRan : Bool
  sedRan : Bool
deriving DecidableEq, Repr

/-- `replaceCompileCommandsPath` (source lines 523–578): a total function
— every internal fault is caught by its own `try/catch` blocks and turned
into `false`.  Absent file → no-op `false` (line 528); `fs.statSync`
throwing → outer catch, `false` (line 574); `grep -q /sandbox` finding
nothing → no-op `false` before `sed` (line 541); `sed` succeeding →
`true`; `sed` failing → inner catch, `false` (line 569). -/
def replaceCompileCommandsPath (env : RestartEnv) : RewriteResult :=
  if !env.fileExists then
    ⟨false, false, false⟩
  else if env.statThrows then
    ⟨false, false, false⟩
  else if !env.grepFound then
    ⟨false, true, false⟩
  else if env.sedOk then
    ⟨true, true, true⟩
  else
    ⟨false, true, true⟩

/-- What `restartClangd` did. -/
structure RestartResult where
  rewrite : RewriteResult
  clangdCommandExecuted : Bool
deriving DecidableEq, Repr

/-- `restartClangd` (source lines 584–617): always run the path rewrite
first (line 589, its boolean result is bound but never read afterwards),
then look for registered `clangd*` commands; when none exist warn and
return, otherwise execute `clangd.restart` (a failure of that command is
caught by the surrounding `try/catch`). -/
def restartClangd (env : RestartEnv) : RestartResult :=
  let replaced := replaceCompileCommandsPath env
  if !env.clangdAvailable then
    ⟨replaced, false⟩
  else
    ⟨replaced, true⟩

/-- What the `close` event handler did. -/
structure CloseResult where
  tookAfterSnapshot : Bool
  updated : Bool
  restart : Option RestartResult
  overallSuccess : Bool
deriving DecidableEq, Repr

/-- The `close` handler of the spawned process (lines 215–241 in
`executeInDocker`, identical at lines 411–437 in `executeLocally`).
`signal` is truthy → warn only; `code === 0` → take the after snapshot,
compare, and on a detected update call `restartClangd`; any other exit
code → error only. -/
def closeHandler (signal : Option String) (code : Option Int)
    (beforeStats : FileStats) (afterProbe : FileProbe) (renv : RestartEnv) : CloseResult :=
  match signal with
  | some _ => ⟨false, false, none, false⟩
  | none =>
    if code = some 0 then
      let afterStats := getFileStats afterProbe
      if isCompileCommandsUpdated beforeStats afterStats then
        ⟨true, true, some (restartClangd renv), true⟩
      else
        ⟨true, false, none, true⟩
    else
      ⟨false, false, none, false⟩

/-! ## §8  `execute` dispatch, configuration, constructor, and the
per-command override normalization of `extension.ts` -/

/-- The read-only configuration surface `execute` consults
(`vscode.workspace.getConfiguration('deeproute-compile-commands')`), after
`config.get`'s defaulting: `executeLocally` defaults to `false`,
`dockerContainerName` defaults to `'deeproute-dev-x86-2004'`. -/
structure Config where
  globalExecuteLocally : Bool
  dockerContainerName : String
deriving DecidableEq, Repr

/-- The orchestrator object's construction-time fields: the workspace
root and the validity bit computed once by the constructor (lines 14–20). -/
structure DeepRouteState where
  workspaceRoot : String
  workspaceRootValid : Bool
deriving DecidableEq, Repr

/-- `checkWorkspaceRoot` (source lines 623–635): the workspace root must
equal `path.join(os.homedir(), 'codetree', 'repo')` (modelled for a home
directory without a trailing slash). -/
def checkWorkspaceRoot (workspaceRoot homeDir : String) : Bool :=
  workspaceRoot == homeDir ++ "/codetree/repo"

/-- The constructor (source lines 14–20): stores the root and computes
`workspaceRootValid` once. -/
def mkDeepRouteCompileCommands (workspaceRoot homeDir : String) : DeepRouteState :=
  { workspaceRoot := workspaceRoot
    workspaceRootValid := checkWorkspaceRoot workspaceRoot homeDir }

/-- Where `execute` (source lines 254–304) dispatches one request. -/
inductive ExecuteDispatch where
  | rejectedWorkspaceRoot
  | rejectedNoContainer
  | localMode
  | dockerMode (containerName : String)
deriving DecidableEq, Repr

/-- The dispatch logic of `execute` (lines 254–304): reject when the
stored validity bit is false (line 256); resolve the mode as
`executeLocally === true || globalExecuteLocally === true` (line 269);
in containerized mode reject when the configured container name is blank
(line 277, `!name || !name.trim()`), else run `executeInDocker` with the
trimmed name (line 302). -/
def executeDispatch (st : DeepRouteState) (cfg : Config)
    (executeLocallyOverride : Option Bool) : ExecuteDispatch :=
  if !st.workspaceRootValid then
    .rejectedWorkspaceRoot
  else
    let shouldExecuteLocally :=
      executeLocallyOverride == some true || cfg.globalExecuteLocally == true
    if shouldExecuteLocally then
      .localMode
    else if jsTrim cfg.dockerContainerName == "" then
      .rejectedNoContainer
    else
      .dockerMode (jsTrim cfg.dockerContainerName)

/-- One whole `execute` call, composed with the pre-spawn runs of §6:
dispatching to `executeLocally` / `executeInDocker` or rejecting before
either is entered. -/
def execute (st : DeepRouteState) (cfg : Config) (executeLocallyOverride : Option Bool)
    (cwd : Option String) (s : OrchState) (choice : ConfirmChoice) (denv : DockerEnv)
    (dirExists : Bool) (newProc : Proc) : Except JsError (ExecuteDispatch × RunResult) :=
  match executeDispatch st cfg executeLocallyOverride with
  | .rejectedWorkspaceRoot => .ok (.rejectedWorkspaceRoot, ⟨s, [], false, false, []⟩)
  | .rejectedNoContainer => .ok (.rejectedNoContainer, ⟨s, [], false, false, []⟩)
  | .localMode => .ok (.localMode, executeLocally s choice cwd dirExists newProc)
  | .dockerMode name =>
    match executeInDocker s choice denv newProc with
    | .error e => .error e
    | .ok r => .ok (.dockerMode name, r)

/-- A command-configuration entry (`predefinedCommands`): either a bare
command string or a structured record. -/
inductive CommandConfigEntry where
  | str (s : String)
  | obj (command : String) (workingDirectory : Option String)
        (aliasName : Option String) (executeLocally : Option Bool)
deriving DecidableEq, Repr

/-- `executeCommandInternal` (src/src/extension.ts lines 600–612): scan
`predefinedCommands` for an *object* entry whose `command` equals the
command being run; on a match the override becomes
`cmd.executeLocally === true` (a definite boolean); bare strings are
skipped; no match leaves the override `undefined`. -/
def findOverride (pre : List CommandConfigEntry) (command : String) : Option Bool :=
  match pre with
  | [] => none
  | .str _ :: rest => findOverride rest command
  | .obj c _ _ el :: rest =>
    if c = command then some (el == some true) else findOverride rest command

/-! ## §9  Derived notions used by the claims -/

/-- Number of live process handles: the orchestrator has the single
`currentProcess` field, so this is `0` or `1`. -/
def handleCount (s : OrchState) : Nat :=
  s.currentProcess.toList.length

/-- The container's running state was freshly verified inside this
invocation: either the first `docker inspect` reported `true`, or it
reported a different value, `docker start` succeeded, and the re-inspect
reported `true`. -/
def freshlyVerifiedRunning (env : DockerEnv) : Prop :=
  (env.inspectResult.error = none ∧ env.inspectResult.status = some 0 ∧
    ∃ o, env.inspectResult.stdout = some o ∧ jsTrim o = "true")
  ∨
  (env.inspectResult.error = none ∧ env.inspectResult.status = some 0 ∧
    (∃ o, env.inspectResult.stdout = some o ∧ jsTrim o ≠ "true") ∧
    env.startResult.error = none ∧ env.startResult.status = some 0 ∧
    env.verifyResult.status = some 0 ∧
    ∃ o₂, env.verifyResult.stdout = some o₂ ∧ jsTrim o₂ = "true")

/-- The dispatch resolved the request to local execution. -/
def resolvesLocal : ExecuteDispatch → Bool
  | .localMode => true
  | _ => false

/-! ## §10  Claim theorems -/

/-- C3: the artifact change detector is total (`getFileStats` returns a
record for every probe outcome; a missing file and an I/O error both
normalize to `{exists := false}`), and `isCompileCommandsUpdated` on two
snapshots is `true` iff the file went from absent to present, or both
snapshots exist and the second modification time is strictly greater;
equal timestamps are not a change. -/
theorem c3_detector_total_and_rule (p₁ p₂ : FileProbe) :
    ((p₁ = .missing ∨ p₁ = .ioError) → getFileStats p₁ = ⟨false, none⟩) ∧
    (isCompileCommandsUpdated (getFileStats p₁) (getFileStats p₂) = true ↔
      ((getFileStats p₁).exists = false ∧ (getFileStats p₂).exists = true) ∨
      ((getFileStats p₁).exists = true ∧ (getFileStats p₂).exists = true ∧
        ∃ tb ta, (getFileStats p₁).mtime = some tb ∧ (getFileStats p₂).mtime = some ta ∧
          tb < ta)) := by
  cases p₁ <;> cases p₂ <;>
    simp [getFileStats, isCompileCommandsUpdated]

/-- C3 witness: instantiated at a pair of present snapshots with equal
timestamps (no change reported) via the general theorem. -/
theorem c3_detector_total_and_rule_witness :
    ((FileProbe.ioError = .missing ∨ FileProbe.ioError = .ioError) →
      getFileStats .ioError = ⟨false, none⟩) ∧
    (isCompileCommandsUpdated (getFileStats .ioError) (getFileStats (.present 5)) = true ↔
      ((getFileStats .ioError).exists = false ∧ (getFileStats (.present 5)).exists = true) ∨
      ((getFileStats .ioError).exists = true ∧ (getFileStats (.present 5)).exists = true ∧
        ∃ tb ta, (getFileStats .ioError).mtime = some tb ∧
          (getFileStats (.present 5)).mtime = some ta ∧ tb < ta)) :=
  c3_detector_total_and_rule .ioError (.present 5)

/-- C2 (code bug): `stop()` sends `SIGTERM` and immediately clears
`this.currentProcess`, so when the 3-second escalation timer fires the
handle is gone and no `SIGKILL` is ever delivered to the stopped process
— even one that never exits.  Worse, a process freshly spawned inside the
grace window is the one the timer would `SIGKILL`. -/
theorem c2_stop_escalation_eval :
    stop ⟨some ⟨7, false⟩, false⟩ = (⟨none, true⟩, [.sigterm 7]) ∧
    stopTimerFire ⟨none, true⟩ = (⟨none, false⟩, []) ∧
    (stopTimerFire ⟨some ⟨8, false⟩, true⟩).2 = [.sigkill 8] :=
  ⟨rfl, rfl, rfl⟩

/-- The docker environment of C9's failing input: the container does not
exist, and the diagnostic `docker ps -a` enumeration fails at the spawn
level (`EAGAIN`), leaving its `stdout` as `null`. -/
def listSpawnFailEnv : DockerEnv :=
  { inspectResult :=
      ⟨none, some 1, some "", some "Error: No such container: deeproute-dev-x86-2004"⟩
    listResult := ⟨some "spawn docker EAGAIN", none, none, none⟩
    startResult := ⟨none, some 0, some "", some ""⟩
    verifyResult := ⟨none, some 0, some "true", some ""⟩ }

/-- C9 (code bug): when the container is absent the code reads
`listResult.stdout.toString()` without a null guard, so a spawn-level
failure of the enumeration call escapes `executeInDocker` as an uncaught
`TypeError` instead of being swallowed; by contrast an enumeration child
that runs and fails (non-zero exit, `stdout` a buffer) is swallowed and
the invocation still ends as `containerNotFound`. -/
theorem c9_enumeration_failure_escapes :
    executeInDockerPre listSpawnFailEnv = .error .nullToString ∧
    executeInDockerPre
        { listSpawnFailEnv with listResult := ⟨none, some 1, some "", some "daemon error"⟩ }
      = .ok (.containerNotFound, [.inspect, .list]) :=
  ⟨rfl, rfl⟩

/-- C1: the orchestrator owns at most one process handle at any instant;
when a handle exists as a new execute request arrives — local or container
mode alike — the user is first asked for confirmation, and a declined
confirmation leaves the state exactly as it was, sends no signal, and
spawns nothing. -/
theorem c1_single_flight (s : OrchState) (choice : ConfirmChoice) (cwd : Option String)
    (dirExists : Bool) (denv : DockerEnv) (p : Proc)
    (hlive : s.currentProcess.isSome = true) (hdecline : choice ≠ .stopAndExecuteNew) :
    (∀ t : OrchState, handleCount t ≤ 1) ∧
    (confirmStopGuard s choice).asked = true ∧
    executeLocally s choice cwd dirExists p = ⟨s, [], false, false, []⟩ ∧
    executeInDocker s choice denv p = .ok ⟨s, [], false, false, []⟩ := by
  obtain ⟨q, hq⟩ := Option.isSome_iff_exists.mp hlive
  refine ⟨fun t => ?_, ?_, ?_, ?_⟩
  · rcases t with ⟨_ | _, _⟩ <;> simp [handleCount]
  · simp [confirmStopGuard, hq, hdecline]
  · simp [executeLocally, confirmStopGuard, hq, hdecline]
  · simp [executeInDocker, confirmStopGuard, hq, hdecline]

/-- C1 witness: a live handle (pid 7) plus a dismissed confirmation. -/
theorem c1_single_flight_witness :
    (∀ t : OrchState, handleCount t ≤ 1) ∧
    (confirmStopGuard ⟨some ⟨7, false⟩, false⟩ .cancel).asked = true ∧
    executeLocally ⟨some ⟨7, false⟩, false⟩ .cancel (some "modules") true ⟨9, false⟩
      = ⟨⟨some ⟨7, false⟩, false⟩, [], false, false, []⟩ ∧
    executeInDocker ⟨some ⟨7, false⟩, false⟩ .cancel listSpawnFailEnv ⟨9, false⟩
      = .ok ⟨⟨some ⟨7, false⟩, false⟩, [], false, false, []⟩ :=
  c1_single_flight ⟨some ⟨7, false⟩, false⟩ .cancel (some "modules") true
    listSpawnFailEnv ⟨9, false⟩ rfl (by decide)

/-- C6: the refresh collaborator (`restartClangd`, whose body performs the
rewrite and then signals clangd) is invoked by the close handler iff the
process exited with code 0 and the artifact snapshots compare as changed;
on a signal termination or a non-zero exit nothing is snapshotted,
rewritten or refreshed; and whenever it is invoked, the `clangd.restart`
command is executed exactly when the clangd capability is available —
independently of whether the rewrite succeeded. -/
theorem c6_refresh_iff_clean_exit_and_change (signal : Option String) (code : Option Int)
    (before : FileStats) (afterProbe : FileProbe) (renv : RestartEnv) :
    ((closeHandler signal code before afterProbe renv).restart.isSome = true ↔
      (signal = none ∧ code = some 0 ∧
        isCompileCommandsUpdated before (getFileStats afterProbe) = true)) ∧
    ((signal ≠ none ∨ code ≠ some 0) →
      closeHandler signal code before afterProbe renv = ⟨false, false, none, false⟩) ∧
    (∀ rr, (closeHandler signal code before afterProbe renv).restart = some rr →
      rr.clangdCommandExecuted = renv.clangdAvailable) := by
  have hrc : (restartClangd renv).clangdCommandExecuted = renv.clangdAvailable := by
    cases h : renv.clangdAvailable <;> simp [restartClangd, h]
  rcases signal with _ | sig
  · by_cases hc : code = some 0
    · subst hc
      by_cases hu : isCompileCommandsUpdated before (getFileStats afterProbe) = true
      · refine ⟨by simp [closeHandler, hu], by simp, ?_⟩
        intro rr hrr
        have hval : restartClangd renv = rr := by
          simpa [closeHandler, hu] using hrr
        rw [← hval]
        exact hrc
      · simp [closeHandler, hu]
    · simp [closeHandler, hc]
  · simp [closeHandler]

/-- C6 witness: clean exit, artifact newly created, sed failing but clangd
available. -/
theorem c6_refresh_iff_clean_exit_and_change_witness :
    ((closeHandler none (some 0) ⟨false, none⟩ (.present 5)
        ⟨true, false, true, false, true⟩).restart.isSome = true ↔
      ((none : Option String) = none ∧ (some 0 : Option Int) = some 0 ∧
        isCompileCommandsUpdated ⟨false, none⟩ (getFileStats (.present 5)) = true)) ∧
    (((none : Option String) ≠ none ∨ (some 0 : Option Int) ≠ some 0) →
      closeHandler none (some 0) ⟨false, none⟩ (.present 5) ⟨true, false, true, false, true⟩
        = ⟨false, false, none, false⟩) ∧
    (∀ rr, (closeHandler none (some 0) ⟨false, none⟩ (.present 5)
        ⟨true, false, true, false, true⟩).restart = some rr →
      rr.clangdCommandExecuted = (⟨true, false, true, false, true⟩ : RestartEnv).clangdAvailable) :=
  c6_refresh_iff_clean_exit_and_change none (some 0) ⟨false, none⟩ (.present 5)
    ⟨true, false, true, false, true⟩

/-- C8: the path rewrite is a total no-op (no grep probe, no sed, result
`false`) when the artifact file is absent; the sed substitution is skipped
whenever the `/sandbox` marker probe finds nothing; and a rewrite failure
never aborts the invocation — the clangd refresh is still executed exactly
when the capability is available, and a clean-exit invocation still ends
as an overall success for every rewrite outcome. -/
theorem c8_rewrite_best_effort (renv : RestartEnv) (before : FileStats)
    (afterProbe : FileProbe) :
    (renv.fileExists = false → replaceCompileCommandsPath renv = ⟨false, false, false⟩) ∧
    (renv.grepFound = false → (replaceCompileCommandsPath renv).sedRan = false) ∧
    ((restartClangd renv).clangdCommandExecuted = renv.clangdAvailable) ∧
    ((closeHandler none (some 0) before afterProbe renv).overallSuccess = true) := by
  refine ⟨?_, ?_, ?_, ?_⟩
  · intro h; simp [replaceCompileCommandsPath, h]
  · intro h
    rcases hf : renv.fileExists with _ | _ <;>
      rcases hs : renv.statThrows with _ | _ <;>
        simp [replaceCompileCommandsPath, hf, hs, h]
  · cases h : renv.clangdAvailable <;> simp [restartClangd, h]
  · by_cases hu : isCompileCommandsUpdated before (getFileStats afterProbe) = true <;>
      simp [closeHandler, hu]

/-- C8 witness: absent artifact file. -/
theorem c8_rewrite_best_effort_witness :
    ((⟨false, false, false, false, false⟩ : RestartEnv).fileExists = false →
      replaceCompileCommandsPath ⟨false, false, false, false, false⟩ = ⟨false, false, false⟩) ∧
    ((⟨false, false, false, false, false⟩ : RestartEnv).grepFound = false →
      (replaceCompileCommandsPath ⟨false, false, false, false, false⟩).sedRan = false) ∧
    ((restartClangd ⟨false, false, false, false, false⟩).clangdCommandExecuted
      = (⟨false, false, false, false, false⟩ : RestartEnv).clangdAvailable) ∧
    ((closeHandler none (some 0) ⟨true, some 4⟩ (.present 4)
        ⟨false, false, false, false, false⟩).overallSuccess = true) :=
  c8_rewrite_best_effort ⟨false, false, false, false, false⟩ ⟨true, some 4⟩ (.present 4)

/-- C4: a request that resolves to containerized mode while the configured
container name is blank is rejected as a configuration error: `execute`
returns the `rejectedNoContainer` outcome having made no docker call,
taken no snapshot, spawned nothing and sent no signal. -/
theorem c4_no_container_rejected_pre_spawn (st : DeepRouteState) (cfg : Config)
    (ov : Option Bool) (cwd : Option String) (s : OrchState) (choice : ConfirmChoice)
    (denv : DockerEnv) (dirExists : Bool) (p : Proc)
    (hvalid : st.workspaceRootValid = true) (hov : ov ≠ some true)
    (hglobal : cfg.globalExecuteLocally = false)
    (hname : jsTrim cfg.dockerContainerName = "") :
    execute st cfg ov cwd s choice denv dirExists p
      = .ok (.rejectedNoContainer, ⟨s, [], false, false, []⟩) := by
  have hov₂ : (ov == some true) = false := by
    rcases ov with _ | b
    · rfl
    · cases b
      · rfl
      · exact absurd rfl hov
  simp [execute, executeDispatch, hvalid, hglobal, hov₂, hname]

/-- C4 witness: valid workspace, no overrides, container name all blanks. -/
theorem c4_no_container_rejected_pre_spawn_witness :
    execute ⟨"/home/dev/codetree/repo", true⟩ ⟨false, "  "⟩ none none
        ⟨none, false⟩ .dismissed listSpawnFailEnv true ⟨3, false⟩
      = .ok (.rejectedNoContainer, ⟨⟨none, false⟩, [], false, false, []⟩) :=
  c4_no_container_rejected_pre_spawn ⟨"/home/dev/codetree/repo", true⟩ ⟨false, "  "⟩
    none none ⟨none, false⟩ .dismissed listSpawnFailEnv true ⟨3, false⟩
    rfl (by decide) rfl rfl

/-- Helper for C7: a `predefinedCommands` list consisting solely of bare
strings never yields a per-command override. -/
theorem findOverride_all_str (l : List CommandConfigEntry) (command : String)
    (h : ∀ e ∈ l, ∃ bare, e = .str bare) : findOverride l command = none := by
  induction l with
  | nil => rfl
  | cons e rest ih =>
    rcases h e (List.mem_cons_self e rest) with ⟨bare, hb⟩
    subst hb
    simpa [findOverride] using ih fun x hx => h x (List.mem_cons_of_mem _ hx)

/-- C7: with a valid workspace root, the mode resolves to local iff the
per-command override is exactly `true` or the global local-execution flag
is `true`; and a bare-string configuration entry carries no override — it
is skipped by the normalization scan, and a list of only bare strings
normalizes to no override at all. -/
theorem c7_mode_resolution (st : DeepRouteState) (cfg : Config) (ov : Option Bool)
    (hvalid : st.workspaceRootValid = true) :
    (resolvesLocal (executeDispatch st cfg ov) = true ↔
      (ov = some true ∨ cfg.globalExecuteLocally = true)) ∧
    (∀ (bare : String) (rest : List CommandConfigEntry) (command : String),
      findOverride (.str bare :: rest) command = findOverride rest command) ∧
    (∀ (l : List CommandConfigEntry) (command : String),
      (∀ e ∈ l, ∃ bare, e = .str bare) → findOverride l command = none) := by
  refine ⟨?_, fun bare rest command => rfl,
    fun l command h => findOverride_all_str l command h⟩
  by_cases hb : ov = some true ∨ cfg.globalExecuteLocally = true
  · have hb₂ : (ov == some true || cfg.globalExecuteLocally == true) = true := by
      rcases hb with hb | hb <;> simp [hb]
    simp [executeDispatch, hvalid, hb₂, resolvesLocal, hb]
  · have hov : (ov == some true) = false := by
      rcases ov with _ | b
      · rfl
      · cases b
        · rfl
        · exact absurd (Or.inl rfl) hb
    have hgl : (cfg.globalExecuteLocally == true) = false := by
      cases hg : cfg.globalExecuteLocally
      · rfl
      · exact absurd (Or.inr hg) hb
    cases ht : (jsTrim cfg.dockerContainerName == "") <;>
      simp [executeDispatch, hvalid, hov, hgl, ht, resolvesLocal, hb]

/-- C7 witness: override `some false` plus global flag `true` still
resolves local (through the global flag); bare-string entries carry
nothing. -/
theorem c7_mode_resolution_witness :
    (resolvesLocal (executeDispatch ⟨"/home/dev/codetree/repo", true⟩ ⟨true, "dev"⟩
        (some false)) = true ↔
      ((some false : Option Bool) = some true ∨
        (⟨true, "dev"⟩ : Config).globalExecuteLocally = true)) ∧
    (∀ (bare : String) (rest : List CommandConfigEntry) (command : String),
      findOverride (.str bare :: rest) command = findOverride rest command) ∧
    (∀ (l : List CommandConfigEntry) (command : String),
      (∀ e ∈ l, ∃ bare, e = .str bare) → findOverride l command = none) :=
  c7_mode_resolution ⟨"/home/dev/codetree/repo", true⟩ ⟨true, "dev"⟩ (some false) rfl

/-- C10 (implicit): a workspace root different from `$HOME/codetree/repo`
makes the constructor store `workspaceRootValid = false`, and every
subsequent `execute` call is then rejected before mode resolution — no
docker call, no snapshot, no spawn, no signal; moreover `execute`'s
dispatch reads only the stored validity bit, so the construction-time
check is what every invocation reuses. -/
theorem c10_workspace_root_gate (root home : String) (cfg : Config) (ov : Option Bool)
    (cwd : Option String) (s : OrchState) (choice : ConfirmChoice) (denv : DockerEnv)
    (dirExists : Bool) (p : Proc)
    (hroot : root ≠ home ++ "/codetree/repo") :
    (mkDeepRouteCompileCommands root home).workspaceRootValid = false ∧
    execute (mkDeepRouteCompileCommands root home) cfg ov cwd s choice denv dirExists p
      = .ok (.rejectedWorkspaceRoot, ⟨s, [], false, false, []⟩) ∧
    (∀ st₁ st₂ : DeepRouteState, st₁.workspaceRootValid = st₂.workspaceRootValid →
      executeDispatch st₁ cfg ov = executeDispatch st₂ cfg ov) := by
  have hv : (mkDeepRouteCompileCommands root home).workspaceRootValid = false := by
    simp only [mkDeepRouteCompileCommands, checkWorkspaceRoot]
    exact beq_eq_false_iff_ne.mpr hroot
  refine ⟨hv, by simp [execute, executeDispatch, hv], ?_⟩
  intro st₁ st₂ h
  unfold executeDispatch
  rw [h]

/-- C10 witness: a workspace opened at `/tmp/elsewhere`. -/
theorem c10_workspace_root_gate_witness :
    (mkDeepRouteCompileCommands "/tmp/elsewhere" "/home/dev").workspaceRootValid = false ∧
    execute (mkDeepRouteCompileCommands "/tmp/elsewhere" "/home/dev") ⟨false, "dev"⟩ none none
        ⟨none, false⟩ .dismissed listSpawnFailEnv true ⟨3, false⟩
      = .ok (.rejectedWorkspaceRoot, ⟨⟨none, false⟩, [], false, false, []⟩) ∧
    (∀ st₁ st₂ : DeepRouteState, st₁.workspaceRootValid = st₂.workspaceRootValid →
      executeDispatch st₁ ⟨false, "dev"⟩ none = executeDispatch st₂ ⟨false, "dev"⟩ none) :=
  c10_workspace_root_gate "/tmp/elsewhere" "/home/dev" ⟨false, "dev"⟩ none none
    ⟨none, false⟩ .dismissed listSpawnFailEnv true ⟨3, false⟩ (by decide)

/-- Reading a `spawnSync` buffer succeeds exactly on non-null buffers. -/
theorem bufToString_ok {o : Option String} {s : String}
    (h : bufToString o = .ok s) : o = some s := by
  cases o with
  | none => exact absurd h (by simp [bufToString])
  | some v =>
    simp only [bufToString, Except.ok.injEq] at h
    rw [h]

/-- Helper for C5: whenever the container phase ends in `proceed`, the
container's running state was freshly verified in this invocation. -/
theorem executeInDockerPre_proceed {env : DockerEnv} {calls : List DockerCall}
    (h : executeInDockerPre env = .ok (.proceed, calls)) :
    freshlyVerifiedRunning env := by
  simp only [executeInDockerPre] at h
  split at h
  next hc₁ => exact absurd h (by simp)
  next hc₁ =>
    have herr : env.inspectResult.error = none := by
      simpa [Option.not_isSome_iff_eq_none] using hc₁
    split at h
    next hc₂ =>
      split at h
      next => exact absurd h (by simp)
      next errRaw heq =>
        split at h
        next =>
          split at h
          next => exact absurd h (by simp)
          next => exact absurd h (by simp)
        next => exact absurd h (by simp)
    next hc₂ =>
      have hst : env.inspectResult.status = some 0 := by
        simpa [bne_iff_ne] using hc₂
      split at h
      next => exact absurd h (by simp)
      next out₁ hout₁ =>
        have ho₁ : env.inspectResult.stdout = some out₁ := bufToString_ok hout₁
        split at h
        next htrue =>
          exact Or.inl ⟨herr, hst, out₁, ho₁, by simpa using htrue⟩
        next hfalse =>
          split at h
          next => exact absurd h (by simp)
          next hc₃ =>
            have hs₁ : env.startResult.error = none := by
              rcases hse : env.startResult.error with _ | v
              · rfl
              · exact absurd (by simp [hse]) hc₃
            have hs₂ : env.startResult.status = some 0 := by
              by_contra hne
              exact hc₃ (by simp [bne_iff_ne, hne])
            split at h
            next => exact absurd h (by simp)
            next hc₄ =>
              have hv₁ : env.verifyResult.status = some 0 := by
                simpa [bne_iff_ne] using hc₄
              split at h
              next => exact absurd h (by simp)
              next out₂ hout₂ =>
                have ho₂ : env.verifyResult.stdout = some out₂ := bufToString_ok hout₂
                split at h
                next htrue₂ =>
                  exact Or.inr ⟨herr, hst, ⟨out₁, ho₁, by simpa using hfalse⟩,
                    hs₁, hs₂, hv₁, out₂, ho₂, by simpa using htrue₂⟩
                next => exact absurd h (by simp)

/-- C5: the `docker exec` spawn step of a container-mode invocation only
happens when the most recent lifecycle check of that same invocation
freshly verified the container as running — either the first inspect
reported `true`, or it did not, the start call succeeded, and the
re-inspect reported `true`. -/
theorem c5_spawn_requires_fresh_running (s : OrchState) (choice : ConfirmChoice)
    (denv : DockerEnv) (p : Proc) (r : RunResult)
    (h : executeInDocker s choice denv p = .ok r) (hs : r.spawned = true) :
    freshlyVerifiedRunning denv := by
  simp only [executeInDocker] at h
  split at h
  next =>
    cases h
    simp at hs
  next =>
    split at h
    next => exact absurd h (by simp)
    next calls hpre =>
      exact executeInDockerPre_proceed hpre
    next outcome calls hne hpre =>
      cases h
      simp at hs

/-- A docker environment whose container is already running. -/
def runningEnv : DockerEnv :=
  { inspectResult := ⟨none, some 0, some "true\n", some ""⟩
    listResult := ⟨none, some 0, some "", some ""⟩
    startResult := ⟨none, some 0, some "", some ""⟩
    verifyResult := ⟨none, some 0, some "true", some ""⟩ }

/-- C5 witness: an idle orchestrator spawning in `runningEnv`. -/
theorem c5_spawn_requires_fresh_running_witness :
    freshlyVerifiedRunning runningEnv :=
  c5_spawn_requires_fresh_running ⟨none, false⟩ .dismissed runningEnv ⟨1, false⟩
    ⟨⟨some ⟨1, false⟩, false⟩, [.inspect], true, true, []⟩ rfl rfl

end DeepRouteCompileCommands
